import Mathlib

/-!
# Verification of the finance-bot PDF statement pipeline

Shallow embedding of the document-processing pipeline of the repository:

* `src/lambda/shared/transaction-parser.js` (the line-oriented transaction
  parser used by the worker): `parseTransactions`, `parseAmount`,
  `convertToISODate`, `generateTransactionHash`, `autoCategory`;
* `src/lambda/shared/parser.js` (the Textract table parser, not invoked by
  the worker): its `parseAmount` is embedded as `parseAmountTable`;
* `src/lambda/shared/document-status.js`: `DocumentStatus`, `ErrorType`,
  `canRetry`;
* `src/lambda/shared/pdf-text-extractor.js`: `extractTextFromPDF` as a
  state machine over the four temporary files it manages, and
  `updateDocumentStatus` / `markDocumentFailed` / `markPasswordError` /
  `markDocumentCompleted` (the document tracker) over an abstract store;
* `src/lambda/workers/pdf-processor.js`: the extraction-error
  classification of `processRecord` and `saveTransactions` over an
  abstract DynamoDB table.

Modelling conventions:
* JavaScript numbers are modelled as exact rationals; `NaN` is `none` in
  `Option ℚ`.  The inputs of interest are small decimal literals, where
  double rounding plays no role.
* JavaScript strings are Lean `String`s; the handful of string operations
  the source uses (`trim`, `includes`, `split`, one-occurrence `replace`,
  regex scans for the two fixed patterns) are defined below with the
  semantics of the JS originals on the ASCII inputs the parser handles.
* Effects (S3, DynamoDB, child processes, the wall clock) are passed in as
  explicit parameters, so every function is pure and executable.
-/

/-! ## JavaScript string primitives -/

/-- Characters treated as whitespace by `String.prototype.trim` (the ASCII
ones; the parser's inputs are `pdftotext` output). -/
def isJsWhitespace (c : Char) : Bool :=
  c = ' ' || c = '\t' || c = '\n' || c = '\r' || c = '\x0c' || c = '\x0b'

/-- `String.prototype.trim`: drop leading and trailing whitespace. -/
def jsTrim (s : String) : String :=
  String.mk (((s.toList.dropWhile isJsWhitespace).reverse.dropWhile
    isJsWhitespace).reverse)

/-- Does `needle` occur at the head of `hay`? -/
def startsWithList : List Char → List Char → Bool
  | _, [] => true
  | [], _ :: _ => false
  | h :: hs, n :: ns => h = n && startsWithList hs ns

/-- `String.prototype.includes`: substring occurrence test. -/
def containsSubList : List Char → List Char → Bool
  | hay, needle =>
    if startsWithList hay needle then true
    else
      match hay with
      | [] => false
      | _ :: rest => containsSubList rest needle

/-- `hay.includes(needle)` from JavaScript. -/
def containsSub (hay needle : String) : Bool :=
  containsSubList hay.toList needle.toList

/-- `String.prototype.replace` with a plain-string pattern replaces only
the first occurrence.  (For an empty pattern JS prepends the replacement.) -/
def replaceFirstList (s pat repl : List Char) : List Char :=
  match pat with
  | [] => repl ++ s
  | _ :: _ =>
    match s with
    | [] => []
    | c :: rest =>
      if startsWithList (c :: rest) pat then repl ++ (c :: rest).drop pat.length
      else c :: replaceFirstList rest pat repl

/-- `s.replace(pat, repl)` from JavaScript (first occurrence only). -/
def replaceFirst (s pat repl : String) : String :=
  String.mk (replaceFirstList s.toList pat.toList repl.toList)

/-- `String.prototype.split` with a one-character separator (the source
only ever splits on `'\n'` and `'/'`).  `"".split(sep)` is `[""]`. -/
def splitOnCharList (sep : Char) : List Char → List (List Char)
  | [] => [[]]
  | c :: rest =>
    if c = sep then [] :: splitOnCharList sep rest
    else match splitOnCharList sep rest with
      | [] => [[c]]
      | g :: gs => (c :: g) :: gs

def jsSplit (s : String) (sep : Char) : List String :=
  (splitOnCharList sep s.toList).map String.mk

/-- `String.prototype.toLowerCase` on the ASCII range (non-ASCII letters
are left unchanged; no keyword the parser compares against contains
one). -/
def jsLowerChar (c : Char) : Char :=
  if 'A' ≤ c ∧ c ≤ 'Z' then Char.ofNat (c.toNat + 32) else c

def jsToLower (s : String) : String :=
  String.mk (s.toList.map jsLowerChar)

def isDigitChar (c : Char) : Bool := '0' ≤ c && c ≤ '9'

/-- Numeric value of a digit string (`0` for the empty string). -/
def digitsToNat (ds : List Char) : Nat :=
  ds.foldl (fun n c => 10 * n + (c.toNat - '0'.toNat)) 0

/-- Value of a fraction part: `"78"` contributes `78/100`. -/
def fracValue (ds : List Char) : ℚ :=
  (digitsToNat ds : ℚ) / (10 : ℚ) ^ ds.length

/-- Exponent digits after `e`/`E` with optional sign; a malformed exponent
is not consumed by `parseFloat` and contributes `0`. -/
def parseExpAux : List Char → Int
  | '-' :: r => if (r.takeWhile isDigitChar) = [] then 0
      else -(digitsToNat (r.takeWhile isDigitChar) : Int)
  | '+' :: r => if (r.takeWhile isDigitChar) = [] then 0
      else (digitsToNat (r.takeWhile isDigitChar) : Int)
  | r => if (r.takeWhile isDigitChar) = [] then 0
      else (digitsToNat (r.takeWhile isDigitChar) : Int)

def parseExponent : List Char → Int
  | 'e' :: r => parseExpAux r
  | 'E' :: r => parseExpAux r
  | _ => 0

/-- The syntactic result of JavaScript `parseFloat`: sign, integer
digits, fraction digits, exponent.  Splitting the scan from the numeric
interpretation keeps the scan kernel-decidable (rational arithmetic is
not). -/
structure FloatParts where
  neg : Bool
  intD : List Char
  fracD : List Char
  expo : Int
deriving Repr, DecidableEq

/-- The rational value denoted by scanned float parts. -/
def FloatParts.value (p : FloatParts) : ℚ :=
  (if p.neg then (-1 : ℚ) else 1) *
    ((digitsToNat p.intD : ℚ) + fracValue p.fracD) * (10 : ℚ) ^ p.expo

/-- The scan phase of JavaScript `parseFloat` on decimal notation: skip
leading whitespace, optional sign, integer digits, optional `.` and
fraction digits, optional exponent; everything after the longest numeric
prefix is ignored.  `none` models `NaN` (no numeric prefix at all). -/
def parseFloatParts (s : String) : Option FloatParts :=
  let cs := s.toList.dropWhile isJsWhitespace
  let neg : Bool := cs.headD ' ' = '-'
  let cs1 : List Char :=
    if cs.headD ' ' = '-' ∨ cs.headD ' ' = '+' then cs.tail else cs
  let intD := cs1.takeWhile isDigitChar
  let cs2 := cs1.dropWhile isDigitChar
  let fracD : List Char := match cs2 with
    | '.' :: r => r.takeWhile isDigitChar
    | _ => []
  let cs3 : List Char := match cs2 with
    | '.' :: r => r.dropWhile isDigitChar
    | _ => cs2
  if intD = [] ∧ fracD = [] then none
  else some ⟨neg, intD, fracD, parseExponent cs3⟩

/-- JavaScript `parseFloat`, as an exact rational (`none` = `NaN`). -/
def parseFloat (s : String) : Option ℚ :=
  (parseFloatParts s).map FloatParts.value

/-! ## `parseAmount` — transaction-parser.js (used by the worker)

```js
function parseAmount(amountStr) {
  try {
    const normalized = amountStr.replace(/\./g, '').replace(',', '.');
    return parseFloat(normalized);
  } catch (error) { return 0; }
}
```
`replace(/\./g,'')` removes every dot; `replace(',', '.')` rewrites only
the first comma.  Nothing in the body can throw, so the `catch` is dead. -/
def amountNormalize (amountStr : String) : String :=
  replaceFirst (String.mk (amountStr.toList.filter (fun c => c ≠ '.'))) "," "."

def parseAmount (amountStr : String) : Option ℚ :=
  parseFloat (amountNormalize amountStr)

/-! ## `parseAmount` — shared/parser.js (table parser, not on the worker path)

```js
let cleaned = amountStr.trim().replace(/[$€£¥₹]/g, '').replace(/\s+/g, '');
const hasCommaDecimal = /\d+,\d{2}$/.test(cleaned);
if (hasCommaDecimal) cleaned = cleaned.replace(/\./g, '').replace(',', '.');
else cleaned = cleaned.replace(/,/g, '');
const amount = parseFloat(cleaned);
if (isNaN(amount)) return 0;
return amount;
```
-/

def isCurrencySymbol (c : Char) : Bool :=
  c = '$' || c = '€' || c = '£' || c = '¥' || c = '₹'

/-- `/\d+,\d{2}$/.test`: the string ends in digits, a comma, and exactly
two digits. -/
def hasCommaDecimal (cs : List Char) : Bool :=
  match cs.reverse with
  | d1 :: d2 :: ',' :: d3 :: _ => isDigitChar d1 && isDigitChar d2 && isDigitChar d3
  | _ => false

/-- `parseAmount` of `src/lambda/shared/parser.js` (source name
`parseAmount`; renamed here to avoid clashing with the worker parser's
function of the same name). -/
def tableNormalize (amountStr : String) : List Char :=
  let cleaned := (jsTrim amountStr).toList.filter
    (fun c => ¬ (isCurrencySymbol c || isJsWhitespace c))
  if hasCommaDecimal cleaned then
    replaceFirstList (cleaned.filter (fun c => c ≠ '.')) [','] ['.']
  else
    cleaned.filter (fun c => c ≠ ',')

def parseAmountTable (amountStr : String) : ℚ :=
  match parseFloat (String.mk (tableNormalize amountStr)) with
  | none => 0
  | some q => q

/-! ## document-status.js -/

namespace DocumentStatus

def UPLOADED : String := "UPLOADED"
def PROCESSING : String := "PROCESSING"
def DECRYPTING : String := "DECRYPTING"
def EXTRACTING_TEXT : String := "EXTRACTING_TEXT"
def PARSING : String := "PARSING"
def COMPLETED : String := "COMPLETED"
def FAILED : String := "FAILED"
def PASSWORD_ERROR : String := "PASSWORD_ERROR"
def RETRY_PENDING : String := "RETRY_PENDING"

end DocumentStatus

namespace ErrorType

def PASSWORD_INCORRECT : String := "PASSWORD_INCORRECT"
def PASSWORD_MISSING : String := "PASSWORD_MISSING"
def PDF_CORRUPTED : String := "PDF_CORRUPTED"
def QPDF_FAILED : String := "QPDF_FAILED"
def EXTRACTION_FAILED : String := "EXTRACTION_FAILED"
def PARSING_FAILED : String := "PARSING_FAILED"
def NO_TRANSACTIONS_FOUND : String := "NO_TRANSACTIONS_FOUND"
def DYNAMODB_ERROR : String := "DYNAMODB_ERROR"
def S3_ERROR : String := "S3_ERROR"
def UNKNOWN_ERROR : String := "UNKNOWN_ERROR"

end ErrorType

/-- `RETRYABLE_STATUSES` from document-status.js. -/
def RETRYABLE_STATUSES : List String :=
  [DocumentStatus.FAILED, DocumentStatus.PASSWORD_ERROR,
   DocumentStatus.RETRY_PENDING]

/-- `canRetry(status)`: membership in `RETRYABLE_STATUSES`. -/
def canRetry (status : String) : Bool :=
  RETRYABLE_STATUSES.contains status

/-- `FINAL_STATUSES` from document-status.js. -/
def FINAL_STATUSES : List String :=
  [DocumentStatus.COMPLETED, DocumentStatus.FAILED,
   DocumentStatus.PASSWORD_ERROR]

/-- `isFinal(status)` from document-status.js. -/
def isFinal (status : String) : Bool :=
  FINAL_STATUSES.contains status

/-! ## transaction-parser.js — the worker's line parser -/

/-- `convertToISODate`: `DD/MM/YYYY` → `YYYY-MM-DD`.  With fewer than three
`/`-separated parts the JS body throws on `undefined.padStart` and the
`catch` returns the input unchanged. -/
def padStart2 (s : String) : String :=
  if s.length ≥ 2 then s else
  if s.length = 1 then "0" ++ s else "00"

def convertToISODate (dateStr : String) : String :=
  match jsSplit dateStr '/' with
  | d :: m :: y :: _ => y ++ "-" ++ padStart2 m ++ "-" ++ padStart2 d
  | _ => dateStr

/-- First match of `/(\d{2}\/\d{2}\/\d{4})/` in the line: the leftmost
ten-character window of shape `dd/dd/dddd`. -/
def dateMatchAt : List Char → Option (List Char)
  | d1 :: d2 :: '/' :: d3 :: d4 :: '/' :: y1 :: y2 :: y3 :: y4 :: _ =>
    if isDigitChar d1 && isDigitChar d2 && isDigitChar d3 && isDigitChar d4 &&
       isDigitChar y1 && isDigitChar y2 && isDigitChar y3 && isDigitChar y4
    then some [d1, d2, '/', d3, d4, '/', y1, y2, y3, y4]
    else none
  | _ => none

def findDateList : List Char → Option (List Char)
  | [] => none
  | c :: rest =>
    match dateMatchAt (c :: rest) with
    | some m => some m
    | none => findDateList rest

/-- `line.match(/(\d{2}\/\d{2}\/\d{4})/)` — the first date substring. -/
def findDate (line : String) : Option String :=
  (findDateList line.toList).map String.mk

/-- Characters of the class `[\d.,]` in the amount pattern. -/
def isAmtChar (c : Char) : Bool := isDigitChar c || c = '.' || c = ','

/-- All capture groups of `line.matchAll(/\$\s*([\d.,]+)/g)`: after each
`$`, greedy whitespace, then a non-empty maximal run of `[\d.,]`; on a
failed attempt the scan resumes after the `$`, on success after the match.
`fuel` only bounds the recursion (`amountMatches` passes the length). -/
def amountScanAux : Nat → List Char → List (List Char)
  | 0, _ => []
  | _ + 1, [] => []
  | fuel + 1, c :: rest =>
    if c = '$' then
      let afterWs := rest.dropWhile isJsWhitespace
      let grp := afterWs.takeWhile isAmtChar
      if grp = [] then amountScanAux fuel rest
      else grp :: amountScanAux fuel (afterWs.drop grp.length)
    else amountScanAux fuel rest

def amountMatches (line : String) : List (List Char) :=
  amountScanAux line.toList.length line.toList

/-- `line.split('$')[0]` — the text before the first `$` (the whole line
when there is none). -/
def beforeFirstDollar (line : String) : String :=
  String.mk (line.toList.takeWhile (fun c => c ≠ '$'))

/-- `merchant.match(/^(\d{6})/)` — exactly the first six characters when
they are all digits. -/
def leadingAuthNumber (merchant : String) : Option String :=
  match merchant.toList with
  | d1 :: d2 :: d3 :: d4 :: d5 :: d6 :: _ =>
    if isDigitChar d1 && isDigitChar d2 && isDigitChar d3 &&
       isDigitChar d4 && isDigitChar d5 && isDigitChar d6
    then some (String.mk [d1, d2, d3, d4, d5, d6])
    else none
  | _ => none

/-- The ordered category table of `autoCategory` (object-literal insertion
order, which `Object.entries` preserves). -/
def categoryTable : List (String × List String) :=
  [("RESTAURANTES", ["restaurante", "pizza", "burger", "comida", "cafe",
      "starbucks", "mc donald", "frisby", "dominos", "juan vald", "coffee"]),
   ("SUPERMERCADOS", ["exito", "carulla", "mercado", "super", "homecenter",
      "alkosto"]),
   ("TRANSPORTE", ["uber", "taxi", "parking", "peaje", "gasolina",
      "ecopetrol", "eds", "combustible"]),
   ("SALUD", ["farmacia", "drogueria", "clinica", "hospital", "colmedica",
      "farmatodo", "cruz verde"]),
   ("TECNOLOGIA", ["amazon", "google", "apple", "microsoft", "netflix",
      "spotify", "openai", "github", "cloudflare", "aws"]),
   ("ENTRETENIMIENTO", ["cine", "teatro", "juego", "gimnasio", "fitness",
      "deporte", "sporty"]),
   ("SERVICIOS", ["telefon", "internet", "luz", "agua", "gas", "movistar",
      "claro", "une", "starlink"]),
   ("HOGAR", ["homecenter", "ferreteria", "mueble", "decoracion"]),
   ("EDUCACION", ["universidad", "colegio", "curso", "libro"]),
   ("VIAJES", ["hotel", "aero", "avianca", "latam", "viaje"]),
   ("OTROS_SERVICIOS", ["rappi", "payu", "pago"])]

/-- `autoCategory(merchant)`: first category whose keyword list has a
member contained in the lowercased merchant; `SIN_CATEGORIA` otherwise. -/
def autoCategory (merchant : String) : String :=
  let merchantLower := jsToLower merchant
  match categoryTable.find? (fun p =>
      p.2.any (fun keyword => containsSub merchantLower keyword)) with
  | some p => p.1
  | none => "SIN_CATEGORIA"

/-- `generateTransactionHash`: SHA-256 of the `|`-join of the identifying
fields.  `sha256hex` and `jsNumberToString` (JS number stringification) are
passed in as parameters: every theorem below holds for all choices, so
nothing depends on modelling their internals.  `Array.join` renders `null`
as the empty string, hence `getD ""`. -/
def generateTransactionHash (sha256hex : String → String)
    (jsNumberToString : Option ℚ → String)
    (auth0UserId : String) (date : Option String) (amount : Option ℚ)
    (merchant : String) (authNumber : Option String)
    (sourceDocumentId : String) : String :=
  sha256hex (String.intercalate "|"
    [auth0UserId, date.getD "", jsNumberToString amount, merchant,
     authNumber.getD "", sourceDocumentId])

/-- Document metadata handed to `parseTransactions` by the worker. -/
structure ParseMeta where
  sourceDocumentId : String
  auth0UserId : String
  userEmail : String
  documentType : String
deriving Repr, DecidableEq

/-- One parsed transaction record (transaction-parser.js).  `amount` is a
JS number (`none` = `NaN`); `createdAt` is the wall-clock timestamp taken
at parse time. -/
structure Transaction where
  auth0UserId : String
  userEmail : String
  transactionId : String
  date : Option String
  merchant : String
  authNumber : Option String
  amount : Option ℚ
  amountStr : String
  type : String
  category : String
  sourceDocumentId : String
  documentType : String
  rawLine : String
  createdAt : String
deriving Repr, DecidableEq

/-- Section-start detection of the scanner loop. -/
def isSectionStart (line : String) : Bool :=
  containsSub line "Nuevos movimientos" ||
  containsSub line "Movimientos" ||
  (containsSub line "Número de" && containsSub line "autorización")

/-- Section-end detection of the scanner loop. -/
def isSectionEnd (line : String) : Bool :=
  containsSub line "En casos de inconsistencias" ||
  containsSub line "Resumen de tu cuenta" ||
  containsSub line "Total a pagar"

/-- The body run on a candidate line (already trimmed, inside the section,
non-empty, with a date and at least one amount token). -/
def buildTransaction (sha256hex : String → String)
    (jsNumberToString : Option ℚ → String) (clock : String)
    (meta : ParseMeta) (line : String) : Transaction :=
  let dateM := findDate line
  let isoDate := dateM.map convertToISODate
  let merchant0 := jsTrim (beforeFirstDollar line)
  let merchant1 := match dateM with
    | some d => jsTrim (replaceFirst merchant0 d "")
    | none => merchant0
  let authNumber := leadingAuthNumber merchant1
  let merchant2 := match authNumber with
    | some a => jsTrim (replaceFirst merchant1 a "")
    | none => merchant1
  let extractedAmounts := (amountMatches line).map
    (fun grp => jsTrim (String.mk grp))
  let amountStr := extractedAmounts.headD "0"
  let amount := parseAmount amountStr
  let isCredit := containsSub (jsToLower merchant2) "pago" ||
    containsSub (jsToLower merchant2) "abono" ||
    containsSub (jsToLower merchant2) "reversion"
  { auth0UserId := meta.auth0UserId
    userEmail := meta.userEmail
    transactionId := generateTransactionHash sha256hex jsNumberToString
      meta.auth0UserId isoDate amount merchant2 authNumber
      meta.sourceDocumentId
    date := isoDate
    merchant := if merchant2 = "" then "DESCONOCIDO" else merchant2
    authNumber := authNumber
    amount := amount
    amountStr := amountStr
    type := if isCredit then "CREDIT" else "DEBIT"
    category := autoCategory merchant2
    sourceDocumentId := meta.sourceDocumentId
    documentType := meta.documentType
    rawLine := line
    createdAt := clock }

/-- Is the trimmed line a transaction candidate in the current state? -/
def isCandidate (inSection : Bool) (line : String) : Bool :=
  inSection && line.length > 0 && (findDate line).isSome &&
    !(amountMatches line).isEmpty

/-- The scanner loop of `parseTransactions`: a section-start line sets the
flag and `continue`s (skipping even the section-end test); otherwise a
candidate line yields a transaction, and then a section-end line clears
the flag. -/
def parseLinesGo (sha256hex : String → String)
    (jsNumberToString : Option ℚ → String) (clock : String)
    (meta : ParseMeta) : List String → Bool → List Transaction
  | [], _ => []
  | raw :: rest, inSection =>
    let line := jsTrim raw
    if isSectionStart line then
      parseLinesGo sha256hex jsNumberToString clock meta rest true
    else
      let here : List Transaction :=
        if isCandidate inSection line then
          [buildTransaction sha256hex jsNumberToString clock meta line]
        else []
      let nextFlag := if isSectionEnd line then false else inSection
      here ++ parseLinesGo sha256hex jsNumberToString clock meta rest nextFlag

/-- `parseTransactions(text, metadata)` from transaction-parser.js. -/
def parseTransactions (sha256hex : String → String)
    (jsNumberToString : Option ℚ → String) (clock : String)
    (text : String) (meta : ParseMeta) : List Transaction :=
  parseLinesGo sha256hex jsNumberToString clock meta (jsSplit text '\n') false

/-! ## pdf-processor.js — `saveTransactions`

The DynamoDB transactions table is modelled as the list of stored items;
the existence probe of the `GetCommand` and the
`attribute_not_exists(transactionId)` condition both key on
`(auth0UserId, transactionId)`.  A DynamoDB call that throws is modelled
by the `fault` oracle: `conditionalCheckFailed` is the
`ConditionalCheckFailedException` branch of the `catch` (counted as a
duplicate), any other fault is counted as an error; a faulted iteration
leaves the table unchanged (DynamoDB writes are atomic). -/

abbrev TxnStore := List Transaction

inductive DbFault where
  | conditionalCheckFailed
  | other (message : String)
deriving Repr, DecidableEq

/-- The `{saved, duplicates, errors}` counters returned by
`saveTransactions`. -/
structure SaveResult where
  saved : Nat
  duplicates : Nat
  errors : Nat
deriving Repr, DecidableEq

/-- Existence probe on the composite key `(auth0UserId, transactionId)`. -/
def existsInStore (store : TxnStore) (t : Transaction) : Bool :=
  store.any (fun x => x.auth0UserId == t.auth0UserId &&
    x.transactionId == t.transactionId)

/-- `saveTransactions(transactions)`: per-item get-then-conditional-put
with the three counters; a failure on one item never stops the loop. -/
def saveTransactions (fault : Transaction → TxnStore → Option DbFault) :
    List Transaction → TxnStore → SaveResult × TxnStore
  | [], store => (⟨0, 0, 0⟩, store)
  | t :: ts, store =>
    match fault t store with
    | some .conditionalCheckFailed =>
      let r := saveTransactions fault ts store
      (⟨r.1.saved, r.1.duplicates + 1, r.1.errors⟩, r.2)
    | some (.other _) =>
      let r := saveTransactions fault ts store
      (⟨r.1.saved, r.1.duplicates, r.1.errors + 1⟩, r.2)
    | none =>
      if existsInStore store t then
        let r := saveTransactions fault ts store
        (⟨r.1.saved, r.1.duplicates + 1, r.1.errors⟩, r.2)
      else
        let r := saveTransactions fault ts (store ++ [t])
        (⟨r.1.saved + 1, r.1.duplicates, r.1.errors⟩, r.2)

/-- The all-calls-succeed oracle. -/
def noFault : Transaction → TxnStore → Option DbFault := fun _ _ => none

/-- The deduplication key of a stored transaction. -/
def txnKey (t : Transaction) : String × String :=
  (t.auth0UserId, t.transactionId)

/-! ## pdf-text-extractor.js — `extractTextFromPDF`

The four temporary files the function manages are modelled as existence
flags; `fs.writeFileSync` sets a flag, `fs.unlinkSync` clears it (at every
unguarded `unlinkSync` call site the file exists on all reachable paths,
so conflating the two is sound), `fs.existsSync` reads it.  External
behaviour is passed in: the S3 download as an `Except`, the two tool runs
as outcomes.  Per the decrypt-tool contract (spec §6: decrypted output
*or* a non-zero exit with diagnostic), a failing `qpdf` run produces no
output file; `pdftotext` may exit zero yet write no output file (the
source checks `existsSync(outputFile)` for exactly that case), and
`wroteOutput` is adversarial on the failing path too. -/

structure TempFS where
  inputFile : Bool
  passwordFile : Bool
  unlockedFile : Bool
  outputFile : Bool
deriving Repr, DecidableEq

def TempFS.empty : TempFS := ⟨false, false, false, false⟩

inductive ToolOutcome where
  | ok
  | fail (diagnostic : String)
deriving Repr, DecidableEq

/-- Which file is `fileToExtract`? -/
inductive ExtractSource where
  | input
  | unlocked
deriving Repr, DecidableEq

/-- `error.message` of a rejected `child_process.exec` promise:
`"Command failed: <cmd>\n<stderr>"`. -/
def execErrorMessage (cmd diagnostic : String) : String :=
  "Command failed: " ++ cmd ++ "\n" ++ diagnostic

def TempFS.clearSource (fs : TempFS) : ExtractSource → TempFS
  | .input => { fs with inputFile := false }
  | .unlocked => { fs with unlockedFile := false }

def TempFS.sourceExists (fs : TempFS) : ExtractSource → Bool
  | .input => fs.inputFile
  | .unlocked => fs.unlockedFile

/-- Step 4 of `extractTextFromPDF`: run `pdftotext`, read and clean up on
success, clean up (guarded by `existsSync`) and rethrow on failure. -/
def runPdftotext (pdftotext : ToolOutcome) (wroteOutput : Bool)
    (extractedText : String) (src : ExtractSource) (fs : TempFS) :
    Except String String × TempFS :=
  match pdftotext with
  | .ok =>
    let fs1 := { fs with outputFile := wroteOutput }
    if fs1.outputFile then
      (.ok extractedText, { fs1.clearSource src with outputFile := false })
    else
      -- `throw new Error('pdftotext no generó archivo de salida')` is
      -- raised inside the same `try`, so the catch cleans up and rewraps.
      let fs2 := if fs1.sourceExists src then fs1.clearSource src else fs1
      let fs3 := if fs2.outputFile then { fs2 with outputFile := false } else fs2
      (.error ("TEXT_EXTRACTION_FAILED: " ++
        "pdftotext no generó archivo de salida"), fs3)
  | .fail diagnostic =>
    let fs1 := { fs with outputFile := wroteOutput }
    let fs2 := if fs1.sourceExists src then fs1.clearSource src else fs1
    let fs3 := if fs2.outputFile then { fs2 with outputFile := false } else fs2
    (.error ("TEXT_EXTRACTION_FAILED: " ++
      execErrorMessage "pdftotext" diagnostic), fs3)

/-- `extractTextFromPDF(bucket, key, {password})`: returns the extracted
text or the thrown error message, together with the final state of the
temporary files. -/
def extractTextFromPDF (download : Except String String)
    (password : Option String) (qpdf : ToolOutcome)
    (pdftotext : ToolOutcome) (pdftotextWroteOutput : Bool)
    (extractedText : String) : Except String String × TempFS :=
  match download with
  | .error e => (.error e, TempFS.empty)
  | .ok _ =>
    let fs0 : TempFS := { TempFS.empty with inputFile := true }
    match password with
    | some _ =>
      let fs1 := { fs0 with passwordFile := true }
      match qpdf with
      | .fail _ =>
        -- the qpdf diagnostic is discarded: a fixed message is thrown
        let fs2 := if fs1.passwordFile then { fs1 with passwordFile := false } else fs1
        let fs3 := if fs2.inputFile then { fs2 with inputFile := false } else fs2
        (.error "PDF_UNLOCK_FAILED: No se pudo desbloquear el PDF", fs3)
      | .ok =>
        let fs2 := { fs1 with unlockedFile := true,
                              passwordFile := false, inputFile := false }
        runPdftotext pdftotext pdftotextWroteOutput extractedText .unlocked fs2
    | none =>
      runPdftotext pdftotext pdftotextWroteOutput extractedText .input fs0

/-! ## pdf-processor.js — extraction-error classification

```js
if (extractError.message.includes('password') ||
    extractError.message.includes('contraseña')) {
  await markPasswordError(auth0UserId, documentId, `Error de contraseña: ...`);
} else {
  await markDocumentFailed(auth0UserId, documentId,
    ErrorType.EXTRACTION_FAILED, extractError.message);
}
```
`markPasswordError` records status `PASSWORD_ERROR` with error type
`PASSWORD_INCORRECT`; `markDocumentFailed` records status `FAILED` with
the given error type.  The classification result is the
`(status, errorType)` pair written to the tracker. -/
def classifyExtractErrorStatus (message : String) : String × String :=
  if containsSub message "password" || containsSub message "contraseña" then
    (DocumentStatus.PASSWORD_ERROR, ErrorType.PASSWORD_INCORRECT)
  else
    (DocumentStatus.FAILED, ErrorType.EXTRACTION_FAILED)

/-! ## document-tracker (second module of pdf-text-extractor.js source file)

`updateDocumentStatus` guards on missing ids, builds a DynamoDB update
request, sends it, and swallows any send failure (it logs and returns).
The send effect is a parameter; the ambient exception monad is `Except`,
so "the function never throws" is the statement that the result is always
`Except.ok`. -/

structure UpdateRequest where
  auth0UserId : String
  documentId : String
  updates : List (String × String)
deriving Repr, DecidableEq

inductive TrackOutcome where
  | skippedMissingIds
  | updated
  | loggedError (message : String)
deriving Repr, DecidableEq

/-- JS truthiness of the id guards: `undefined`, `null` and `""` are
falsy. -/
def isFalsyId : Option String → Bool
  | none => true
  | some s => s = ""

/-- The update-expression payload: the three unconditional fields, the
conditional timestamps, then `additionalData`.  Values are rendered as
strings (their exact encoding is irrelevant to the claims). -/
def buildUpdateRequest (now uid did status : String)
    (additionalData : List (String × String)) : UpdateRequest :=
  let base := [("status", status), ("statusComposite", uid ++ "#" ++ status),
               ("updatedAt", now)]
  let base1 := if status = DocumentStatus.PROCESSING ∧
      (additionalData.lookup "processingStartedAt").isNone then
      base ++ [("processingStartedAt", now)] else base
  let base2 := if status = DocumentStatus.COMPLETED ∧
      (additionalData.lookup "completedAt").isNone then
      base1 ++ [("completedAt", now)] else base1
  ⟨uid, did, base2 ++ additionalData⟩

/-- `updateDocumentStatus(auth0UserId, documentId, status, additionalData)`. -/
def updateDocumentStatus (send : UpdateRequest → Except String Unit)
    (now : String) (auth0UserId documentId : Option String)
    (status : String) (additionalData : List (String × String)) :
    Except String TrackOutcome :=
  if isFalsyId auth0UserId || isFalsyId documentId then
    .ok .skippedMissingIds
  else
    let req := buildUpdateRequest now (auth0UserId.getD "")
      (documentId.getD "") status additionalData
    match send req with
    | .ok _ => .ok .updated
    | .error e => .ok (.loggedError e)

/-- `markDocumentFailed(auth0UserId, documentId, errorType, errorMessage)`. -/
def markDocumentFailed (send : UpdateRequest → Except String Unit)
    (now : String) (auth0UserId documentId : Option String)
    (errorType errorMessage : String) : Except String TrackOutcome :=
  updateDocumentStatus send now auth0UserId documentId DocumentStatus.FAILED
    [("errorType", errorType), ("errorMessage", errorMessage),
     ("failedAt", now)]

/-- `markPasswordError(auth0UserId, documentId, errorMessage)`. -/
def markPasswordError (send : UpdateRequest → Except String Unit)
    (now : String) (auth0UserId documentId : Option String)
    (errorMessage : String) : Except String TrackOutcome :=
  updateDocumentStatus send now auth0UserId documentId
    DocumentStatus.PASSWORD_ERROR
    [("errorType", ErrorType.PASSWORD_INCORRECT),
     ("errorMessage", errorMessage), ("failedAt", now), ("canRetry", "true")]

/-- `markDocumentCompleted(auth0UserId, documentId, transactionsExtracted,
processingTimeMs)`. -/
def markDocumentCompleted (send : UpdateRequest → Except String Unit)
    (now : String) (auth0UserId documentId : Option String)
    (transactionsExtracted processingTimeMs : String) :
    Except String TrackOutcome :=
  updateDocumentStatus send now auth0UserId documentId
    DocumentStatus.COMPLETED
    [("transactionsExtracted", transactionsExtracted),
     ("processingTimeMs", processingTimeMs)]

/-! ## Theorems -/

/-- C8, counterexample: `canRetry` also returns `true` for
`RETRY_PENDING`, a status that is neither `FAILED` nor `PASSWORD_ERROR`,
so "false for every other status" fails. -/
theorem canRetry_retryPending_counterexample :
    canRetry DocumentStatus.RETRY_PENDING = true ∧
    DocumentStatus.RETRY_PENDING ≠ DocumentStatus.FAILED ∧
    DocumentStatus.RETRY_PENDING ≠ DocumentStatus.PASSWORD_ERROR ∧
    DocumentStatus.RETRY_PENDING ≠ DocumentStatus.COMPLETED := by
  refine ⟨by decide, by decide, by decide, by decide⟩

/-- C8, amended: `canRetry status` is `true` exactly when `status` is
`FAILED`, `PASSWORD_ERROR` or `RETRY_PENDING`; it is `false` for
`COMPLETED` and every other status. -/
theorem canRetry_iff_retryable (status : String) :
    canRetry status = true ↔
      status = DocumentStatus.FAILED ∨ status = DocumentStatus.PASSWORD_ERROR ∨
      status = DocumentStatus.RETRY_PENDING := by
  simp [canRetry, RETRYABLE_STATUSES]

/-- Evaluation helper: `parseAmount` through the decidable scan phase. -/
theorem parseAmount_eq_of_parts (s : String) (p : FloatParts)
    (h : parseFloatParts (amountNormalize s) = some p) :
    parseAmount s = some p.value := by
  unfold parseAmount parseFloat
  rw [h]
  rfl

/-- Evaluation helper: `parseAmount` returning `NaN`. -/
theorem parseAmount_eq_nan (s : String)
    (h : parseFloatParts (amountNormalize s) = none) :
    parseAmount s = none := by
  unfold parseAmount parseFloat
  rw [h]
  rfl

/-- Evaluation helper: `parseAmountTable` through the scan phase. -/
theorem parseAmountTable_eq_of_parts (s : String) (p : FloatParts)
    (h : parseFloatParts (String.mk (tableNormalize s)) = some p) :
    parseAmountTable s = p.value := by
  unfold parseAmountTable parseFloat
  rw [h]
  rfl

/-- C1, counterexample: the worker's `parseAmount` (transaction-parser.js)
strips the dots and then treats the first comma as the decimal separator,
so the US-formatted `"1,234.56"` comes out as `1.23456`, not `1234.56`. -/
theorem parseAmount_us_format_counterexample :
    parseAmount "1,234.56" = some ((123456 : ℚ) / 100000) ∧
    ((123456 : ℚ) / 100000) ≠ ((123456 : ℚ) / 100) := by
  constructor
  · rw [parseAmount_eq_of_parts "1,234.56"
      ⟨false, ['1'], ['2', '3', '4', '5', '6'], 0⟩ (by decide)]
    norm_num [FloatParts.value, fracValue,
      show digitsToNat ['1'] = 1 from rfl,
      show digitsToNat ['2', '3', '4', '5', '6'] = 23456 from rfl]
  · norm_num

/-- C1, amended: the pipeline's `parseAmount` normalizes the
region-formatted `"123.456,78"` to `123456.78`, but maps `"1,234.56"` to
`1.23456` (comma unconditionally taken as the decimal separator) and a
malformed non-numeric string to `NaN` (modelled `none`), not `0`; being a
total function, it raises no exception. -/
theorem parseAmount_actual_normalization :
    parseAmount "123.456,78" = some (123456.78 : ℚ) ∧
    parseAmount "1,234.56" = some (1.23456 : ℚ) ∧
    parseAmount "abc" = none := by
  refine ⟨?_, ?_, parseAmount_eq_nan "abc" (by decide)⟩
  · rw [parseAmount_eq_of_parts "123.456,78"
      ⟨false, ['1', '2', '3', '4', '5', '6'], ['7', '8'], 0⟩ (by decide)]
    norm_num [FloatParts.value, fracValue,
      show digitsToNat ['1', '2', '3', '4', '5', '6'] = 123456 from rfl,
      show digitsToNat ['7', '8'] = 78 from rfl]
  · rw [parseAmount_eq_of_parts "1,234.56"
      ⟨false, ['1'], ['2', '3', '4', '5', '6'], 0⟩ (by decide)]
    norm_num [FloatParts.value, fracValue,
      show digitsToNat ['1'] = 1 from rfl,
      show digitsToNat ['2', '3', '4', '5', '6'] = 23456 from rfl]

/-- For the record: the normalization triple claimed by the spec is the
behaviour of the *other* `parseAmount`, the one in shared/parser.js, which
the worker pipeline never calls. -/
theorem parseAmountTable_matches_spec_triple :
    parseAmountTable "123.456,78" = (123456.78 : ℚ) ∧
    parseAmountTable "1,234.56" = (1234.56 : ℚ) ∧
    parseAmountTable "abc" = 0 := by
  refine ⟨?_, ?_, ?_⟩
  · rw [parseAmountTable_eq_of_parts "123.456,78"
      ⟨false, ['1', '2', '3', '4', '5', '6'], ['7', '8'], 0⟩ (by decide)]
    norm_num [FloatParts.value, fracValue,
      show digitsToNat ['1', '2', '3', '4', '5', '6'] = 123456 from rfl,
      show digitsToNat ['7', '8'] = 78 from rfl]
  · rw [parseAmountTable_eq_of_parts "1,234.56"
      ⟨false, ['1', '2', '3', '4'], ['5', '6'], 0⟩ (by decide)]
    norm_num [FloatParts.value, fracValue,
      show digitsToNat ['1', '2', '3', '4'] = 1234 from rfl,
      show digitsToNat ['5', '6'] = 56 from rfl]
  · unfold parseAmountTable parseFloat
    rw [show parseFloatParts (String.mk (tableNormalize "abc")) = none from by decide]
    rfl

/-- C2: a decrypt (`qpdf`) failure always surfaces as the fixed message
`PDF_UNLOCK_FAILED: No se pudo desbloquear el PDF` — the tool diagnostic
is discarded — and that message contains no password-related substring, so
the worker's classifier records `(FAILED, EXTRACTION_FAILED)` even when
the diagnostic (e.g. `"qpdf: invalid password"`) plainly indicates a
password problem. -/
theorem decrypt_failure_always_extraction_failed :
    (∀ diagnostic bytes pw pout wrote text,
      (extractTextFromPDF (.ok bytes) (some pw) (.fail diagnostic)
        pout wrote text).1 =
        .error "PDF_UNLOCK_FAILED: No se pudo desbloquear el PDF") ∧
    containsSub "qpdf: invalid password" "password" = true ∧
    classifyExtractErrorStatus
        "PDF_UNLOCK_FAILED: No se pudo desbloquear el PDF" =
      (DocumentStatus.FAILED, ErrorType.EXTRACTION_FAILED) ∧
    (DocumentStatus.FAILED, ErrorType.EXTRACTION_FAILED) ≠
      (DocumentStatus.PASSWORD_ERROR, ErrorType.PASSWORD_INCORRECT) := by
  refine ⟨fun diagnostic bytes pw pout wrote text => rfl,
    by decide, by decide, by decide⟩

/-- Metadata used by the concrete parsing scenarios. -/
def scenarioMeta : ParseMeta :=
  ⟨"doc-1", "auth0|user-1", "user@example.com", "cc"⟩

/-- C5, counterexample: on the spec's literal scenario text the candidate
line `123456SUPERMERCADO XYZ$50.000,00` contains no `DD/MM/YYYY` date, so
the scanner skips it and `parseTransactions` returns no transaction at
all. -/
theorem spec_scenario_parses_nothing :
    parseTransactions (fun h => h) (fun _ => "") "2025-01-01T00:00:00.000Z"
      "Movimientos\n123456SUPERMERCADO XYZ$50.000,00\nTotal a pagar"
      scenarioMeta = [] := rfl

/-- C5, amended: once the candidate line also carries a date (which the
scanner requires), the scenario parses to exactly one transaction with
amount `50000`, type `DEBIT`, merchant `SUPERMERCADO XYZ` and category
`SUPERMERCADOS` — for every hash function, number renderer and clock. -/
theorem dated_scenario_single_supermercado (sha256hex : String → String)
    (jsNumberToString : Option ℚ → String) (clock : String) :
    (parseTransactions sha256hex jsNumberToString clock
      "Movimientos\n01/02/2025 123456SUPERMERCADO XYZ$50.000,00\nTotal a pagar"
      scenarioMeta).map (fun t => (t.amount, t.type, t.merchant, t.category)) =
    [(some (50000 : ℚ), "DEBIT", "SUPERMERCADO XYZ", "SUPERMERCADOS")] := by
  have h1 : (parseTransactions sha256hex jsNumberToString clock
      "Movimientos\n01/02/2025 123456SUPERMERCADO XYZ$50.000,00\nTotal a pagar"
      scenarioMeta).map (fun t => (t.amount, t.type, t.merchant, t.category)) =
      [(parseAmount "50.000,00", "DEBIT", "SUPERMERCADO XYZ",
        "SUPERMERCADOS")] := rfl
  rw [h1, parseAmount_eq_of_parts "50.000,00"
    ⟨false, ['5', '0', '0', '0', '0'], ['0', '0'], 0⟩ (by decide)]
  norm_num [FloatParts.value, fracValue,
    show digitsToNat ['5', '0', '0', '0', '0'] = 50000 from rfl,
    show digitsToNat ['0', '0'] = 0 from rfl]

/-- The tracker update resolves to `.ok` for every send effect and every
argument: the id guard returns early and the `catch` swallows the send
failure. -/
theorem updateDocumentStatus_ok (send : UpdateRequest → Except String Unit)
    (now : String) (uid did : Option String) (status : String)
    (extra : List (String × String)) :
    ∃ o, updateDocumentStatus send now uid did status extra = .ok o := by
  unfold updateDocumentStatus
  split
  · exact ⟨_, rfl⟩
  · rcases hsend : send (buildUpdateRequest now (uid.getD "") (did.getD "")
      status extra) with e | u
    · exact ⟨.loggedError e, by simp [hsend]⟩
    · exact ⟨.updated, by simp [hsend]⟩

/-- C7: `updateDocumentStatus` and its wrappers `markDocumentFailed`,
`markPasswordError` and `markDocumentCompleted` return normally — an
`Except.ok` outcome — for every input (including missing ids) and every
behaviour of the persistent store's update operation; a Status-Tracker
failure can never abort pipeline processing. -/
theorem statusTracker_never_throws (send : UpdateRequest → Except String Unit)
    (now : String) (uid did : Option String) (status : String)
    (extra : List (String × String))
    (errorType errorMessage transactionsExtracted processingTimeMs : String) :
    (∃ o, updateDocumentStatus send now uid did status extra = .ok o) ∧
    (∃ o, markDocumentFailed send now uid did errorType errorMessage = .ok o) ∧
    (∃ o, markPasswordError send now uid did errorMessage = .ok o) ∧
    (∃ o, markDocumentCompleted send now uid did transactionsExtracted
      processingTimeMs = .ok o) :=
  ⟨updateDocumentStatus_ok send now uid did status extra,
   updateDocumentStatus_ok send now uid did DocumentStatus.FAILED _,
   updateDocumentStatus_ok send now uid did DocumentStatus.PASSWORD_ERROR _,
   updateDocumentStatus_ok send now uid did DocumentStatus.COMPLETED _⟩

/-- C9: on every exit path of `extractTextFromPDF` — any download result,
any password, any tool outcomes — the final temporary-file state is empty:
no temporary artifact outlives the call. -/
theorem extractTextFromPDF_cleans_tempfiles (download : Except String String)
    (password : Option String) (qpdf pdftotext : ToolOutcome)
    (wroteOutput : Bool) (extractedText : String) :
    (extractTextFromPDF download password qpdf pdftotext wroteOutput
      extractedText).2 = TempFS.empty := by
  cases download <;> cases password <;> cases qpdf <;> cases pdftotext <;>
    cases wroteOutput <;> rfl

/-- C10: for every fault behaviour, input list and store state the three
counters of `saveTransactions` partition the input — each transaction is
counted exactly once as saved, duplicate or error, and a failure on one
item never prevents the remaining items from being attempted. -/
theorem saveTransactions_counts_partition
    (fault : Transaction → TxnStore → Option DbFault)
    (ts : List Transaction) (store : TxnStore) :
    (saveTransactions fault ts store).1.saved +
      (saveTransactions fault ts store).1.duplicates +
      (saveTransactions fault ts store).1.errors = ts.length := by
  induction ts generalizing store with
  | nil => simp [saveTransactions]
  | cons t ts ih =>
    rcases h : fault t store with _ | f
    · by_cases he : existsInStore store t = true
      · have := ih store
        simp only [saveTransactions, h, he, if_true, List.length_cons]
        omega
      · rw [Bool.not_eq_true] at he
        have := ih (store ++ [t])
        simp only [saveTransactions, h, he, Bool.false_eq_true, if_false,
          List.length_cons]
        omega
    · cases f
      · have := ih store
        simp only [saveTransactions, h, List.length_cons]
        omega
      · have := ih store
        simp only [saveTransactions, h, List.length_cons]
        omega

/-- `existsInStore` detects exactly a stored item with the same
deduplication key. -/
theorem existsInStore_iff (store : TxnStore) (t : Transaction) :
    existsInStore store t = true ↔ ∃ x ∈ store, txnKey x = txnKey t := by
  simp [existsInStore, txnKey, List.any_eq_true, Prod.ext_iff]

/-- Run on pairwise-fresh, pairwise-distinct transactions: everything is
saved and appended. -/
theorem saveTransactions_fresh : ∀ (ts : List Transaction) (store : TxnStore),
    (∀ t ∈ ts, existsInStore store t = false) →
    (ts.map txnKey).Nodup →
    saveTransactions noFault ts store = (⟨ts.length, 0, 0⟩, store ++ ts)
  | [], store, _, _ => by simp [saveTransactions]
  | t :: ts, store, hfresh, hnodup => by
    have ht : existsInStore store t = false := hfresh t (List.mem_cons_self t ts)
    have hpair : (∀ x ∈ ts, ¬txnKey x = txnKey t) ∧
        (ts.map txnKey).Nodup := by simpa using hnodup
    have hfresh' : ∀ u ∈ ts, existsInStore (store ++ [t]) u = false := by
      intro u hu
      rw [Bool.eq_false_iff]
      intro hex
      rcases (existsInStore_iff _ _).mp hex with ⟨x, hx, hkey⟩
      rcases List.mem_append.mp hx with hx1 | hx2
      · have : existsInStore store u = true :=
          (existsInStore_iff store u).mpr ⟨x, hx1, hkey⟩
        rw [hfresh u (List.mem_cons_of_mem t hu)] at this
        exact Bool.false_ne_true this
      · have hxt : x = t := by simpa using hx2
        subst hxt
        exact hpair.1 u hu hkey.symm
    have hrec := saveTransactions_fresh ts (store ++ [t]) hfresh' hpair.2
    simp only [saveTransactions, noFault, ht, Bool.false_eq_true, if_false,
      hrec, List.length_cons, List.append_assoc, List.singleton_append]

/-- Run on transactions that are all already present: everything counts
as a duplicate and the store is unchanged. -/
theorem saveTransactions_present : ∀ (ts : List Transaction) (store : TxnStore),
    (∀ t ∈ ts, existsInStore store t = true) →
    saveTransactions noFault ts store = (⟨0, ts.length, 0⟩, store)
  | [], store, _ => by simp [saveTransactions]
  | t :: ts, store, hall => by
    have hrec := saveTransactions_present ts store
      (fun u hu => hall u (List.mem_cons_of_mem t hu))
    simp only [saveTransactions, noFault, hall t (List.mem_cons_self t ts),
      if_true, hrec, List.length_cons]

/-- C4: with pairwise-distinct `(ownerId, transactionId)` keys and an
initially empty store, the first `saveTransactions` run returns
`{saved: N, duplicates: 0, errors: 0}`, and a second run on the same list
returns `{saved: 0, duplicates: N, errors: 0}` and leaves the stored set
unchanged. -/
theorem saveTransactions_idempotent (ts : List Transaction)
    (hnodup : (ts.map txnKey).Nodup) :
    (saveTransactions noFault ts []).1 = ⟨ts.length, 0, 0⟩ ∧
    (saveTransactions noFault ts (saveTransactions noFault ts []).2).1 =
      ⟨0, ts.length, 0⟩ ∧
    (saveTransactions noFault ts (saveTransactions noFault ts []).2).2 =
      (saveTransactions noFault ts []).2 := by
  have h1 := saveTransactions_fresh ts [] (fun t _ => rfl) hnodup
  have hstore : (saveTransactions noFault ts []).2 = ts := by
    rw [h1]
    simp
  have hall : ∀ t ∈ ts, existsInStore ts t = true :=
    fun t ht => (existsInStore_iff ts t).mpr ⟨t, ht, rfl⟩
  have h2 := saveTransactions_present ts ts hall
  refine ⟨by rw [h1], by rw [hstore, h2], by rw [hstore, h2]⟩

/-- Sample transactions for the idempotence witness. -/
def sampleTxn1 : Transaction :=
  ⟨"auth0|user-1", "user@example.com", "hash-1", some "2025-01-01",
   "MERCHANT A", none, some 10, "10", "DEBIT", "SIN_CATEGORIA", "doc-1",
   "cc", "raw a", "T0"⟩

def sampleTxn2 : Transaction :=
  { sampleTxn1 with transactionId := "hash-2", merchant := "MERCHANT B" }

/-- Witness for C4 at a concrete two-element batch. -/
theorem saveTransactions_idempotent_witness :
    (([sampleTxn1, sampleTxn2].map txnKey).Nodup) ∧
    ((saveTransactions noFault [sampleTxn1, sampleTxn2] []).1 = ⟨2, 0, 0⟩ ∧
     (saveTransactions noFault [sampleTxn1, sampleTxn2]
       (saveTransactions noFault [sampleTxn1, sampleTxn2] []).2).1 =
       ⟨0, 2, 0⟩ ∧
     (saveTransactions noFault [sampleTxn1, sampleTxn2]
       (saveTransactions noFault [sampleTxn1, sampleTxn2] []).2).2 =
       (saveTransactions noFault [sampleTxn1, sampleTxn2] []).2) :=
  ⟨by simp [txnKey, sampleTxn1, sampleTxn2],
   saveTransactions_idempotent [sampleTxn1, sampleTxn2]
     (by simp [txnKey, sampleTxn1, sampleTxn2])⟩

/-- The identity hash of a parsed line does not mention the clock. -/
theorem parseLinesGo_ids_clock (sha256hex : String → String)
    (jsNumberToString : Option ℚ → String) (clock1 clock2 : String)
    (meta : ParseMeta) : ∀ (lines : List String) (flag : Bool),
    (parseLinesGo sha256hex jsNumberToString clock1 meta lines flag).map
      Transaction.transactionId =
    (parseLinesGo sha256hex jsNumberToString clock2 meta lines flag).map
      Transaction.transactionId
  | [], _ => rfl
  | raw :: rest, flag => by
    simp only [parseLinesGo]
    split
    · exact parseLinesGo_ids_clock sha256hex jsNumberToString clock1 clock2
        meta rest true
    · rw [List.map_append, List.map_append]
      congr 1
      · split
        · rfl
        · rfl
      · exact parseLinesGo_ids_clock sha256hex jsNumberToString clock1 clock2
          meta rest _

/-- C3: `parseTransactions` is deterministic in its identity hashes — for
any extracted text and context, runs at different wall-clock times produce
transaction lists with identical `transactionId` at every position, since
the hash covers only ownerId, normalized date, amount, merchant, authCode
and sourceDocumentId, never `createdAt`. -/
theorem parseTransactions_ids_deterministic (sha256hex : String → String)
    (jsNumberToString : Option ℚ → String) (clock1 clock2 : String)
    (text : String) (meta : ParseMeta) :
    (parseTransactions sha256hex jsNumberToString clock1 text meta).map
      Transaction.transactionId =
    (parseTransactions sha256hex jsNumberToString clock2 text meta).map
      Transaction.transactionId :=
  parseLinesGo_ids_clock sha256hex jsNumberToString clock1 clock2 meta
    (jsSplit text '\n') false

/-- Every transaction the scanner emits is built by `buildTransaction`
from some line. -/
theorem mem_parseLinesGo (sha256hex : String → String)
    (jsNumberToString : Option ℚ → String) (clock : String)
    (meta : ParseMeta) : ∀ (lines : List String) (flag : Bool)
    (t : Transaction),
    t ∈ parseLinesGo sha256hex jsNumberToString clock meta lines flag →
    ∃ line, t = buildTransaction sha256hex jsNumberToString clock meta line
  | [], _, t, h => absurd h (List.not_mem_nil t)
  | raw :: rest, flag, t, h => by
    simp only [parseLinesGo] at h
    split at h
    · exact mem_parseLinesGo sha256hex jsNumberToString clock meta rest true t h
    · rcases List.mem_append.mp h with h1 | h2
      · split at h1
        · exact ⟨jsTrim raw, List.mem_singleton.mp h1⟩
        · exact absurd h1 (List.not_mem_nil t)
      · exact mem_parseLinesGo sha256hex jsNumberToString clock meta rest _ t h2

/-- Every character of a captured amount group is a digit, dot or comma. -/
theorem amountScanAux_chars : ∀ (fuel : Nat) (cs grp : List Char),
    grp ∈ amountScanAux fuel cs → ∀ c ∈ grp, isAmtChar c = true
  | 0, _, grp, h => absurd h (List.not_mem_nil grp)
  | _ + 1, [], grp, h => absurd h (List.not_mem_nil grp)
  | fuel + 1, c0 :: rest, grp, h => by
    simp only [amountScanAux] at h
    split at h
    · split at h
      · exact amountScanAux_chars fuel rest grp h
      · rcases List.mem_cons.mp h with h1 | h2
        · subst h1
          exact fun c hc => List.mem_takeWhile_imp hc
        · exact amountScanAux_chars fuel _ grp h2
    · exact amountScanAux_chars fuel rest grp h

/-- `jsTrim` only removes characters. -/
theorem jsTrim_chars (s : String) (c : Char) (hc : c ∈ (jsTrim s).toList) :
    c ∈ s.toList := by
  have hc1 : c ∈ ((s.toList.dropWhile isJsWhitespace).reverse.dropWhile
      isJsWhitespace).reverse := hc
  have hc2 := (List.dropWhile_sublist isJsWhitespace).subset
    (List.mem_reverse.mp hc1)
  exact (List.dropWhile_sublist isJsWhitespace).subset
    (List.mem_reverse.mp hc2)

/-- Characters of a first-occurrence replacement come from the subject or
the replacement string. -/
theorem replaceFirstList_chars : ∀ (s pat repl : List Char) (c : Char),
    c ∈ replaceFirstList s pat repl → c ∈ s ∨ c ∈ repl
  | s, [], repl, c, h => by
    simp only [replaceFirstList] at h
    rcases List.mem_append.mp h with h1 | h2
    · exact .inr h1
    · exact .inl h2
  | [], _ :: _, _, c, h => by
    simp only [replaceFirstList] at h
    exact absurd h (List.not_mem_nil c)
  | c0 :: rest, p :: ps, repl, c, h => by
    simp only [replaceFirstList] at h
    split at h
    · rcases List.mem_append.mp h with h1 | h2
      · exact .inr h1
      · exact .inl ((List.drop_sublist _ _).subset h2)
    · rcases List.mem_cons.mp h with h1 | h2
      · exact .inl (h1 ▸ List.mem_cons_self c0 rest)
      · rcases replaceFirstList_chars rest (p :: ps) repl c h2 with h3 | h4
        · exact .inl (List.mem_cons_of_mem c0 h3)
        · exact .inr h4

/-- A scan over a string without a minus sign never reports a negative
sign. -/
theorem parseFloatParts_not_neg (s : String)
    (hs : ∀ c ∈ s.toList, c ≠ '-') (p : FloatParts)
    (h : parseFloatParts s = some p) : p.neg = false := by
  have hhead : ((s.toList.dropWhile isJsWhitespace).headD ' ' = '-') = False := by
    cases hcs : s.toList.dropWhile isJsWhitespace with
    | nil => simp
    | cons c0 r =>
      have hc0 : c0 ∈ s.toList :=
        (List.dropWhile_sublist isJsWhitespace).subset
          (hcs ▸ List.mem_cons_self c0 r)
      simp [hs c0 hc0]
  unfold parseFloatParts at h
  dsimp only [] at h
  simp only [hhead, false_or] at h
  split at h
  all_goals split at h
  any_goals exact Option.noConfusion h
  all_goals injection h with hp
  all_goals simp [← hp]

/-- A non-negative scan denotes a non-negative rational. -/
theorem FloatParts.value_nonneg (p : FloatParts) (hneg : p.neg = false) :
    0 ≤ p.value := by
  unfold FloatParts.value
  rw [hneg]
  have h1 : (0 : ℚ) ≤ (digitsToNat p.intD : ℚ) + fracValue p.fracD :=
    add_nonneg (Nat.cast_nonneg _)
      (div_nonneg (Nat.cast_nonneg _) (pow_nonneg (by norm_num) _))
  have h2 : (0 : ℚ) < (10 : ℚ) ^ p.expo := zpow_pos (by norm_num) _
  simpa using mul_nonneg h1 h2.le

/-- The amount of any built transaction is non-negative when numeric: the
amount token the scanner captures contains only digits, dots and commas,
so no minus sign ever reaches `parseFloat`. -/
theorem buildTransaction_amount_nonneg (sha256hex : String → String)
    (jsNumberToString : Option ℚ → String) (clock : String)
    (meta : ParseMeta) (line : String) (q : ℚ)
    (hq : (buildTransaction sha256hex jsNumberToString clock meta
      line).amount = some q) : 0 ≤ q := by
  have hq' : parseAmount (((amountMatches line).map
      (fun grp => jsTrim (String.mk grp))).headD "0") = some q := hq
  set astr := ((amountMatches line).map
    (fun grp => jsTrim (String.mk grp))).headD "0" with hastr
  have hchars : ∀ c ∈ astr.toList, isAmtChar c = true := by
    cases hm : amountMatches line with
    | nil =>
      have ha : astr = "0" := by rw [hastr, hm]; rfl
      rw [ha]
      intro c hc
      have hc0 : c ∈ ['0'] := hc
      have : c = '0' := by simpa using hc0
      rw [this]
      rfl
    | cons g gs =>
      have ha : astr = jsTrim (String.mk g) := by rw [hastr, hm]; rfl
      rw [ha]
      intro c hc
      have hg : c ∈ g := jsTrim_chars (String.mk g) c hc
      have hmem : g ∈ amountMatches line := by
        rw [hm]
        exact List.mem_cons_self g gs
      exact amountScanAux_chars line.toList.length line.toList g hmem c hg
  have hnodash : ∀ c ∈ (amountNormalize astr).toList, c ≠ '-' := by
    intro c hc
    have hc' : c ∈ replaceFirstList (astr.toList.filter (fun ch => ch ≠ '.'))
        (",".toList) (".".toList) := hc
    rcases replaceFirstList_chars _ _ _ c hc' with h1 | h2
    · have hmem := List.mem_of_mem_filter h1
      have hamt := hchars c hmem
      intro hcc
      rw [hcc] at hamt
      exact absurd hamt (by decide)
    · intro hcc
      rw [hcc] at h2
      have h2' : '-' ∈ ['.'] := h2
      simp at h2'
  unfold parseAmount parseFloat at hq'
  rcases hp : parseFloatParts (amountNormalize astr) with _ | p
  · rw [hp] at hq'
    exact Option.noConfusion hq'
  · rw [hp] at hq'
    have hv : p.value = q := by simpa using hq'
    have hneg := parseFloatParts_not_neg _ hnodash p hp
    rw [← hv]
    exact FloatParts.value_nonneg p hneg

/-- C6, amended: every transaction `parseTransactions` returns carries the
unsigned parsed currency value — whenever the amount is numeric it is
non-negative, for DEBIT lines as much as for CREDIT lines.  (The sign
convention "debit negative" is implemented only by `determineSign` in
shared/parser.js, which the worker pipeline never calls.) -/
theorem parseTransactions_amount_unsigned (sha256hex : String → String)
    (jsNumberToString : Option ℚ → String) (clock : String)
    (text : String) (meta : ParseMeta) (t : Transaction)
    (ht : t ∈ parseTransactions sha256hex jsNumberToString clock text meta)
    (q : ℚ) (hq : t.amount = some q) : 0 ≤ q := by
  rcases mem_parseLinesGo sha256hex jsNumberToString clock meta
    (jsSplit text '\n') false t ht with ⟨line, rfl⟩
  exact buildTransaction_amount_nonneg sha256hex jsNumberToString clock meta
    line q hq

/-- The dated scenario text and the transaction it parses to, with a
concrete hash function, number renderer and clock. -/
def datedScenarioText : String :=
  "Movimientos\n01/02/2025 123456SUPERMERCADO XYZ$50.000,00\nTotal a pagar"

def datedScenarioLine : String :=
  "01/02/2025 123456SUPERMERCADO XYZ$50.000,00"

def scenarioTxn : Transaction :=
  buildTransaction (fun h => h) (fun _ => "") "2025-01-01T00:00:00.000Z"
    scenarioMeta datedScenarioLine

/-- C6, counterexample: the pipeline emits a DEBIT transaction whose
amount is the positive value `50000`, not a negative one — amounts are
never negated. -/
theorem debit_positive_amount_counterexample :
    scenarioTxn ∈ parseTransactions (fun h => h) (fun _ => "")
      "2025-01-01T00:00:00.000Z" datedScenarioText scenarioMeta ∧
    scenarioTxn.type = "DEBIT" ∧
    scenarioTxn.amount = some (50000 : ℚ) ∧
    ¬((50000 : ℚ) < 0) := by
  refine ⟨List.mem_singleton_self scenarioTxn, rfl, ?_, by norm_num⟩
  show parseAmount "50.000,00" = some (50000 : ℚ)
  rw [parseAmount_eq_of_parts "50.000,00"
    ⟨false, ['5', '0', '0', '0', '0'], ['0', '0'], 0⟩ (by decide)]
  norm_num [FloatParts.value, fracValue,
    show digitsToNat ['5', '0', '0', '0', '0'] = 50000 from rfl,
    show digitsToNat ['0', '0'] = 0 from rfl]

/-- Witness for the amended C6 theorem at the concrete scenario
transaction. -/
theorem parseTransactions_amount_unsigned_witness :
    scenarioTxn.amount =
      some (FloatParts.value ⟨false, ['5', '0', '0', '0', '0'], ['0', '0'], 0⟩) ∧
    (0 : ℚ) ≤ FloatParts.value ⟨false, ['5', '0', '0', '0', '0'], ['0', '0'], 0⟩ := by
  have hamt : scenarioTxn.amount =
      some (FloatParts.value ⟨false, ['5', '0', '0', '0', '0'], ['0', '0'], 0⟩) :=
    parseAmount_eq_of_parts "50.000,00"
      ⟨false, ['5', '0', '0', '0', '0'], ['0', '0'], 0⟩ (by decide)
  exact ⟨hamt, parseTransactions_amount_unsigned (fun h => h) (fun _ => "")
    "2025-01-01T00:00:00.000Z" datedScenarioText scenarioMeta scenarioTxn
    (List.mem_singleton_self scenarioTxn) _ hamt⟩
